import Mathlib

/-!
Verification of the parametric drill-template geometry pipeline.

The TypeScript source is shallowly embedded over exact rationals (`ℚ`):
JavaScript numbers are IEEE doubles, every one of which is a rational, and
the claims under study concern exact branch structure and arithmetic
identities, not rounding.  External library functions (three.js geometry
constructors, the CSG backend, `Math.tan`/`Math.cos`/`Math.sin`/`Math.sqrt`)
are not part of this repository and are abstracted as explicit function
parameters; JavaScript exceptions are modelled with `Except`.  A second,
four-valued number type `JRat` (finite / +Infinity / -Infinity / NaN) is
used where IEEE special values drive the behaviour under study (the helix
pitch division in `generateDrillGeometry`).
-/

namespace Drill

/-- The exact rational value of the IEEE-754 double `Math.PI`. -/
def jsPI : ℚ := 884279719003555 / 281474976710656

/-- JavaScript `Math.round`: round half toward positive infinity. -/
def jround (q : ℚ) : ℤ := ⌊q + 1/2⌋

/-- `DrillParameters` from `src/types/drill.d.ts` (the three enumerated
display tags `material`, `tolerance`, `surfaceFinish` have no geometric
effect and are carried as plain strings). -/
structure DrillParameters where
  diameter : ℚ
  length : ℚ
  shankDiameter : ℚ
  shankLength : ℚ
  fluteCount : ℤ
  fluteLength : ℚ
  nonCuttingLength : ℚ
  tipAngle : ℚ
  helixAngle : ℚ
  material : String
  tolerance : String
  surfaceFinish : String
deriving DecidableEq, Repr

/-- The minimum length computed inside `validateDrillParameters`
(`src/types/drill.d.ts`, lines 44-46):
`params.shankLength + params.fluteLength + (Math.abs(params.diameter - params.shankDiameter) / 2)` —
note there is no `+ 3` buffer and no rounding here. -/
def validatorMinLength (p : DrillParameters) : ℚ :=
  p.shankLength + p.fluteLength + |p.diameter - p.shankDiameter| / 2

/-- `validateDrillParameters` from `src/types/drill.d.ts`, lines 36-72,
translated check for check in source order. -/
def validateDrillParameters (p : DrillParameters) : Bool :=
  if p.diameter ≤ 0 ∨ p.length ≤ 0 ∨ p.shankDiameter ≤ 0 ∨
      p.shankLength ≤ 0 ∨ p.fluteLength ≤ 0 then false
  else if p.length < validatorMinLength p then false
  else if p.tipAngle ≤ 0 ∨ p.tipAngle ≥ 180 then false
  else if p.helixAngle < 0 ∨ p.helixAngle > 60 then false
  else if p.fluteCount < 1 ∨ p.fluteCount > 4 then false
  else true

namespace Part003

/-- `calculateMinLength` from the unnamed source file `part_003`
(the tabbed parameter form), lines 67-76:
`Math.round(params.fluteLength + params.shankLength + chamferHeight + 3)`
with `chamferHeight = Math.abs(params.diameter - params.shankDiameter) / 2`. -/
def calculateMinLength (p : DrillParameters) : ℤ :=
  jround (p.fluteLength + p.shankLength + |p.diameter - p.shankDiameter| / 2 + 3)

/-- `calculateNonCuttingLength` from `part_003`:
`Math.max(0, Math.round(params.length - minLength))`. -/
def calculateNonCuttingLength (p : DrillParameters) : ℤ :=
  max 0 (jround (p.length - (calculateMinLength p : ℚ)))

end Part003

namespace ParameterInput

/-- `calculateMinLength` from `src/components/ParameterInput.tsx`,
lines 48-52:
`params.shankLength + params.fluteLength + (Math.abs(params.diameter - params.shankDiameter) / 2)` —
no `+ 3` buffer and no rounding in this component. -/
def calculateMinLength (p : DrillParameters) : ℚ :=
  p.shankLength + p.fluteLength + |p.diameter - p.shankDiameter| / 2

end ParameterInput

/-! ## Mesh data model

`THREE.BufferGeometry` as consumed by this repository: per-vertex attribute
buffers (the flat `Float32Array`s are modelled per-vertex, i.e. as lists of
coordinate triples / pairs, which matches the stride-3 / stride-2 writes of
the source exactly), an optional index buffer, and lazily computed bounding
volumes. -/

/-- A vertex position or normal: an (x, y, z) triple. -/
abbrev Vec3 := ℚ × ℚ × ℚ

/-- A texture coordinate: a (u, v) pair. -/
abbrev Vec2 := ℚ × ℚ

/-- An axis-aligned bounding box (`THREE.Box3`). -/
structure Box3 where
  min : Vec3
  max : Vec3
deriving DecidableEq, Repr

/-- A bounding sphere (`THREE.Sphere`). -/
structure BoundingSphere where
  center : Vec3
  radius : ℚ
deriving DecidableEq, Repr

/-- `THREE.BufferGeometry`, restricted to the attributes this repository
reads and writes. -/
structure BufferGeometry where
  position : Option (List Vec3)
  normal : Option (List Vec3)
  uv : Option (List Vec2)
  index : Option (List ℕ)
  boundingBox : Option Box3
  boundingSphere : Option BoundingSphere
deriving DecidableEq, Repr

instance : Inhabited BufferGeometry := ⟨⟨none, none, none, none, none, none⟩⟩

/-- The vertex count of a geometry (`position.count`; 0 when the attribute
is absent — callers that would crash on an absent attribute are modelled
with `Except`). -/
def posCount (g : BufferGeometry) : ℕ := (g.position.getD []).length

/-- Overwrite `vals.length` entries of `arr` starting at offset `off`
(the typed-array write pattern of `mergeBufferGeometries`; all writes
performed by the source are in bounds by construction of the
preallocated arrays). -/
def writeAt {α : Type} (arr : List α) (off : ℕ) (vals : List α) : List α :=
  arr.take off ++ vals ++ arr.drop (off + vals.length)

/-- `geometry.translate(0, y, 0)`: shift every vertex position along Y.
Normals and any index buffer are unaffected; three.js does not refresh
bounding volumes on translate. -/
def translateY (g : BufferGeometry) (y : ℚ) : BufferGeometry :=
  { g with position := g.position.map (List.map (fun v => (v.1, v.2.1 + y, v.2.2))) }

/-- The vertex-count pass of `mergeBufferGeometries`
(`src/lib/drillGenerator.ts`, lines 359-370): reading
`geometry.getAttribute('position').count` throws a `TypeError` when the
attribute is absent. -/
def getPositionCounts : List BufferGeometry → Except String (List ℕ)
  | [] => .ok []
  | g :: rest =>
    match g.position with
    | none => .error "TypeError: cannot read count of undefined position attribute"
    | some l =>
      match getPositionCounts rest with
      | .ok ns => .ok (l.length :: ns)
      | .error e => .error e

/-- The merge loop of `mergeBufferGeometries`
(`src/lib/drillGenerator.ts`, lines 386-427).  State threads
`vertexOffset`, `indexOffset` and the four preallocated output arrays;
each geometry's attributes are written at the current offsets, the normal
and uv regions staying zero when the input lacks the attribute, and index
entries being shifted by the current `vertexOffset`. -/
def mergeLoop : List BufferGeometry → ℕ → ℕ → List Vec3 → List Vec3 →
    List Vec2 → Option (List ℕ) →
    List Vec3 × List Vec3 × List Vec2 × Option (List ℕ)
  | [], _, _, positions, normals, uvs, indices => (positions, normals, uvs, indices)
  | g :: rest, vertexOffset, indexOffset, positions, normals, uvs, indices =>
    let pos := g.position.getD []
    let positions := writeAt positions vertexOffset pos
    let normals := match g.normal with
      | some ns => writeAt normals vertexOffset ns
      | none => normals
    let uvs := match g.uv with
      | some us => writeAt uvs vertexOffset us
      | none => uvs
    let step : Option (List ℕ) × ℕ := match g.index, indices with
      | some ix, some acc =>
          (some (writeAt acc indexOffset (ix.map (fun i => i + vertexOffset))),
           indexOffset + ix.length)
      | _, _ => (indices, indexOffset)
    mergeLoop rest (vertexOffset + pos.length) step.2 positions normals uvs step.1

/-- `mergeBufferGeometries` from `src/lib/drillGenerator.ts`, lines 358-439:
count vertices and indices, preallocate zeroed output arrays (an index
array only when some input is indexed), run the merge loop, and return a
fresh geometry carrying the merged attributes (bounding volumes of a fresh
`THREE.BufferGeometry` are unset). -/
def mergeBufferGeometries (gs : List BufferGeometry) : Except String BufferGeometry :=
  match getPositionCounts gs with
  | .error e => .error e
  | .ok counts =>
    let vertexCount := counts.sum
    let indexCount := (gs.map (fun g => (g.index.getD []).length)).sum
    let indices0 : Option (List ℕ) :=
      if 0 < indexCount then some (List.replicate indexCount 0) else none
    let r := mergeLoop gs 0 0 (List.replicate vertexCount (0, 0, 0))
      (List.replicate vertexCount (0, 0, 0)) (List.replicate vertexCount (0, 0)) indices0
    .ok ⟨some r.1, some r.2.1, some r.2.2.1, r.2.2.2, none, none⟩

/-! ## External library operations

three.js geometry constructors, `CSG` from three-csg-ts, and the
`Math` trigonometry the generator calls are library code outside this
repository.  They are abstracted as a record of function parameters; the
fallible ones (constructors and the boolean backend, which the source
wraps in try/catch) return `Except`. -/

/-- Parameters of one flute tube: the `UnifiedHelixAndExtensionCurve`
constructor arguments plus the `THREE.TubeGeometry` tessellation
arguments (`src/lib/drillGenerator.ts`, lines 162-181). -/
structure TubeParams where
  radius : ℚ
  helixHeight : ℚ
  helixPitch : ℚ
  baseAngle : ℚ
  startY : ℚ
  extensionLength : ℚ
  tubularSegments : ℕ
  tubeRadius : ℚ
  radialSegments : ℕ
deriving DecidableEq, Repr

/-- The external (three.js / three-csg-ts / `Math`) operations used by
`generateDrillGeometry` and `healGeometry`. -/
structure Externals where
  tan : ℚ → ℚ
  cylinderGeometry : ℚ → ℚ → ℚ → ℕ → Except String BufferGeometry
  coneGeometry : ℚ → ℚ → ℕ → Except String BufferGeometry
  circleGeometry : ℚ → ℕ → Except String BufferGeometry
  rotateX90 : BufferGeometry → BufferGeometry
  tubeGeometry : TubeParams → Except String BufferGeometry
  toNonIndexed : BufferGeometry → BufferGeometry
  csgSubtract : BufferGeometry → BufferGeometry → Except String BufferGeometry
  computeVertexNormals : BufferGeometry → List Vec3
  computeBoundingBox : List Vec3 → Box3
  computeBoundingSphere : List Vec3 → BoundingSphere

/-- `healGeometry` from `src/lib/drillGenerator.ts`, lines 325-355.
Cloning is value semantics here, so the input is untouched by
construction; the clone is returned unchanged (after a logged error) when
the position attribute is missing, and otherwise gets recomputed vertex
normals, a zero-filled uv attribute when none is present, and freshly
computed bounding sphere and box. -/
def healGeometry (ext : Externals) (geometry : BufferGeometry) : BufferGeometry :=
  let healed := geometry
  match healed.position with
  | none => healed
  | some pos =>
    let healed := { healed with normal := some (ext.computeVertexNormals healed) }
    let healed := if healed.uv = none then
        { healed with uv := some (List.replicate pos.length ((0 : ℚ), (0 : ℚ))) }
      else healed
    { healed with
      boundingSphere := some (ext.computeBoundingSphere pos),
      boundingBox := some (ext.computeBoundingBox pos) }

/-! ## The drill generator

`generateDrillGeometry` from `src/lib/drillGenerator.ts`, lines 8-227.
The segment-assembly portion (lines 54-139) is factored into
`buildSegments`, which records, in push order, each primitive's
constructor arguments and Y translation exactly as the source computes
them; `buildBlank` then instantiates and merges them (lines 141-142), and
`generateDrillGeometryTry` adds the flute / CSG stage (lines 146-214).
The top-level catch (lines 215-226) is `generateDrillGeometry`. -/

/-- `MIN_DIAMETER` (line 22). -/
def MIN_DIAMETER : ℚ := 1/10

/-- `MAX_SHANK_DIAMETER` (line 23). -/
def MAX_SHANK_DIAMETER : ℚ := 32

/-- `MIN_SEGMENTS` (line 24). -/
def MIN_SEGMENTS : ℕ := 16

/-- `MAX_SEGMENTS` (line 25). -/
def MAX_SEGMENTS : ℕ := 64

/-- `calculateSegments` (lines 28-36): circumferential facet count,
`max(16, min(64, floor(d * (isFlute ? 24 : 16))))`. -/
def calculateSegments (d : ℚ) (isFlute : Bool) : ℕ :=
  (max (MIN_SEGMENTS : ℤ) (min (MAX_SEGMENTS : ℤ) ⌊d * (if isFlute then 24 else 16)⌋)).toNat

/-- `effectiveDiameter` (line 39): `Math.max(diameter, MIN_DIAMETER)`. -/
def effectiveDiameter (p : DrillParameters) : ℚ := max p.diameter MIN_DIAMETER

/-- `effectiveShankDiameter` (line 40). -/
def effectiveShankDiameter (p : DrillParameters) : ℚ :=
  min (max p.shankDiameter MIN_DIAMETER) MAX_SHANK_DIAMETER

/-- `tipHeight` (line 43): `0` when `tipAngle === 180`, else
`(effectiveDiameter / 2) / Math.tan((tipAngle / 2) * Math.PI / 180)`;
`tan` is the abstracted `Math.tan`. -/
def tipHeightCalc (tan : ℚ → ℚ) (p : DrillParameters) : ℚ :=
  if p.tipAngle = 180 then 0
  else (effectiveDiameter p / 2) / tan ((p.tipAngle / 2) * jsPI / 180)

/-- `flutedPartLength` (line 44):
`fluteLength - tipHeight - effectiveDiameter * 1.35`. -/
def flutedPartLengthCalc (tan : ℚ → ℚ) (p : DrillParameters) : ℚ :=
  p.fluteLength - tipHeightCalc tan p - effectiveDiameter p * (27/20)

/-- `chamferHeight` (line 45):
`Math.abs(effectiveDiameter - effectiveShankDiameter) / 2`. -/
def chamferHeightGen (p : DrillParameters) : ℚ :=
  |effectiveDiameter p - effectiveShankDiameter p| / 2

/-- `totalLength` (line 48):
`shankLength + chamferHeight + nonCuttingLength + flutedPartLength + tipHeight`.
This — not the input parameter `length`, which `generateDrillGeometry`
never reads — is the axial size of everything the generator builds. -/
def totalLengthCalc (tan : ℚ → ℚ) (p : DrillParameters) : ℚ :=
  p.shankLength + chamferHeightGen p + p.nonCuttingLength +
    flutedPartLengthCalc tan p + tipHeightCalc tan p

/-- Which primitive constructor a segment uses. -/
inductive SegmentKind where
  | shank
  | chamfer
  | nonCutting
  | fluted
  | tipCone
  | endCap
deriving DecidableEq, Repr

/-- One pushed primitive: constructor arguments plus the Y translation
applied to it.  `height` is the axial height passed to the constructor
(0 for the flat `CircleGeometry` end cap, which has no height argument). -/
structure Segment where
  kind : SegmentKind
  radiusTop : ℚ
  radiusBottom : ℚ
  height : ℚ
  yCenter : ℚ
  radialSegments : ℕ
deriving DecidableEq, Repr

/-- Lines 52-139 of `generateDrillGeometry`: the ordered list of pushed
primitives, starting at `currentPosition = -totalLength / 2` and
advancing it by each built segment's height.  The chamfer is pushed only
when `chamferHeight > 0`, the non-cutting cylinder only when
`nonCuttingLength > 0`, and the tip is a cone unless `tipAngle === 180`,
in which case it is a flat `CircleGeometry` disc rotated into the XZ
plane and translated (without half-height offset) to `currentPosition`. -/
def buildSegments (tan : ℚ → ℚ) (p : DrillParameters) : List Segment :=
  let effD := effectiveDiameter p
  let effSD := effectiveShankDiameter p
  let tipH := tipHeightCalc tan p
  let flutedLen := flutedPartLengthCalc tan p
  let chamferH := chamferHeightGen p
  let c0 := -(totalLengthCalc tan p) / 2
  let shankSeg : Segment :=
    ⟨.shank, effSD / 2, effSD / 2, p.shankLength, c0 + p.shankLength / 2,
      calculateSegments effSD false⟩
  let c1 := c0 + p.shankLength
  let chamferSegs : List Segment :=
    if 0 < chamferH then
      [⟨.chamfer, effD / 2, effSD / 2, chamferH, c1 + chamferH / 2,
        calculateSegments (max effD effSD) false⟩]
    else []
  let c2 := if 0 < chamferH then c1 + chamferH else c1
  let nonCuttingSegs : List Segment :=
    if 0 < p.nonCuttingLength then
      [⟨.nonCutting, effD / 2, effD / 2, p.nonCuttingLength,
        c2 + p.nonCuttingLength / 2, calculateSegments effD false⟩]
    else []
  let c3 := if 0 < p.nonCuttingLength then c2 + p.nonCuttingLength else c2
  let flutedSeg : Segment :=
    ⟨.fluted, effD / 2, effD / 2, flutedLen, c3 + flutedLen / 2,
      calculateSegments effD false⟩
  let c4 := c3 + flutedLen
  let tipSeg : Segment :=
    if p.tipAngle ≠ 180 then
      ⟨.tipCone, effD / 2, effD / 2, tipH, c4 + tipH / 2,
        calculateSegments effD false⟩
    else
      ⟨.endCap, effD / 2, effD / 2, 0, c4, calculateSegments effD false⟩
  shankSeg :: chamferSegs ++ nonCuttingSegs ++ [flutedSeg] ++ [tipSeg]

/-- `fluteStartPosition` (line 102): `currentPosition` after the shank,
chamfer and non-cutting segments. -/
def fluteStartPositionCalc (tan : ℚ → ℚ) (p : DrillParameters) : ℚ :=
  let c1 := -(totalLengthCalc tan p) / 2 + p.shankLength
  let c2 := if 0 < chamferHeightGen p then c1 + chamferHeightGen p else c1
  if 0 < p.nonCuttingLength then c2 + p.nonCuttingLength else c2

/-- Instantiate one pushed segment through the corresponding three.js
constructor and `translate(0, yCenter, 0)`; the end cap is additionally
`rotateX(Math.PI / 2)`-ed before translation (lines 55-139). -/
def segmentGeometry (ext : Externals) (s : Segment) : Except String BufferGeometry :=
  match s.kind with
  | .endCap =>
    match ext.circleGeometry s.radiusTop s.radialSegments with
    | .ok g => .ok (translateY (ext.rotateX90 g) s.yCenter)
    | .error e => .error e
  | .tipCone =>
    match ext.coneGeometry s.radiusTop s.height s.radialSegments with
    | .ok g => .ok (translateY g s.yCenter)
    | .error e => .error e
  | _ =>
    match ext.cylinderGeometry s.radiusTop s.radiusBottom s.height s.radialSegments with
    | .ok g => .ok (translateY g s.yCenter)
    | .error e => .error e

/-- Build every pushed segment in order, propagating the first
constructor exception (all of lines 55-139 run inside the outer `try`). -/
def buildGeometries (ext : Externals) : List Segment → Except String (List BufferGeometry)
  | [] => .ok []
  | s :: rest =>
    match segmentGeometry ext s with
    | .error e => .error e
    | .ok g =>
      match buildGeometries ext rest with
      | .ok gs => .ok (g :: gs)
      | .error e => .error e

/-- Lines 52-142: build all primitive segments and merge them into the
un-fluted blank. -/
def buildBlank (ext : Externals) (p : DrillParameters) : Except String BufferGeometry :=
  match buildGeometries ext (buildSegments ext.tan p) with
  | .ok gs => mergeBufferGeometries gs
  | .error e => .error e

/-- The per-flute tube parameters (lines 148-180): pitch
`Math.PI * effectiveDiameter / Math.tan(helixAngle * Math.PI / 180)`
(rational division here; the IEEE division-by-zero behaviour at
`helixAngle = 0` is analysed separately on the `JRat` model below),
base angle `2 * Math.PI * flute / fluteCount`, height
`(flutedPartLength + tipHeight) * 1.35`, extension
`effectiveDiameter * 1.35`, a tube radius (`fluteDepth`) of
`effectiveDiameter * 0.3`, and flute-grade facet counts. -/
def fluteTubeParams (ext : Externals) (p : DrillParameters) (flute : ℕ) : TubeParams :=
  let effD := effectiveDiameter p
  { radius := effD / 2
    helixHeight := (flutedPartLengthCalc ext.tan p + tipHeightCalc ext.tan p) * (27/20)
    helixPitch := jsPI * effD / ext.tan (p.helixAngle * jsPI / 180)
    baseAngle := 2 * jsPI * (flute : ℚ) / (p.fluteCount : ℚ)
    startY := fluteStartPositionCalc ext.tan p
    extensionLength := effD * (27/20)
    tubularSegments := calculateSegments effD true
    tubeRadius := effD * (3/10)
    radialSegments := calculateSegments effD true }

/-- The `try` block of `generateDrillGeometry` (lines 54-214).  After the
blank is built: when `fluteCount > 0`, each flute's tube is constructed
inside its own try/catch (a failed flute is merely logged and skipped);
when at least one tube was built, the tubes are merged and the CSG
subtraction runs inside an inner try/catch whose failure is logged and
leaves `drillBodyMesh` — the blank — as the result; a successful
subtraction is healed. -/
def generateDrillGeometryTry (ext : Externals) (p : DrillParameters) :
    Except String BufferGeometry :=
  match buildBlank ext p with
  | .error e => .error e
  | .ok drillBody =>
    if 0 < p.fluteCount then
      let fluteGeometries := (List.range p.fluteCount.toNat).filterMap
        (fun flute => (ext.tubeGeometry (fluteTubeParams ext p flute)).toOption)
      if 0 < fluteGeometries.length then
        match mergeBufferGeometries fluteGeometries with
        | .error e => .error e
        | .ok mergedFlute =>
          match ext.csgSubtract (ext.toNonIndexed drillBody) (ext.toNonIndexed mergedFlute) with
          | .ok res => .ok (healGeometry ext res)
          | .error _ => .ok drillBody
      else .ok drillBody
    else .ok drillBody

/-- `generateDrillGeometry` (lines 8-227): the `try` block, with the
top-level catch (lines 215-226) replacing any escaped exception by a
plain fallback cylinder of radius `effectiveDiameter / 2`, height
`totalLength` and `MIN_SEGMENTS` facets.  The fallback constructor call
itself sits outside the `try`, so its own failure would propagate. -/
def generateDrillGeometry (ext : Externals) (p : DrillParameters) :
    Except String BufferGeometry :=
  match generateDrillGeometryTry ext p with
  | .ok g => .ok g
  | .error _ =>
    ext.cylinderGeometry (effectiveDiameter p / 2) (effectiveDiameter p / 2)
      (totalLengthCalc ext.tan p) MIN_SEGMENTS

/-! ## IEEE special-value model of the flute curve

At `helixAngle = 0` the pitch computation on line 149 divides by
`Math.tan(0) = +0`, which in JavaScript yields `+Infinity`, not an error.
To settle what `UnifiedHelixAndExtensionCurve` then does, the pitch and
curve (lines 148-151 and 233-322) are re-embedded over a four-valued
number type carrying finite values, the two infinities and NaN, with the
IEEE-754 propagation rules for those special values (finite arithmetic
stays exact rational; only the special-value structure is at issue). -/

/-- A JavaScript number: finite (exact rational), +Infinity, -Infinity,
or NaN.  The two IEEE zero signs are collapsed into `fin 0`; the one
zero-divisor reached in this development, `Math.tan(0)`, is `+0`, and
division by it is modelled accordingly. -/
inductive JRat where
  | fin : ℚ → JRat
  | inf : JRat
  | ninf : JRat
  | nan : JRat
deriving DecidableEq, Repr

namespace JRat

/-- IEEE negation. -/
def jneg : JRat → JRat
  | fin a => fin (-a)
  | inf => ninf
  | ninf => inf
  | nan => nan

/-- IEEE addition. -/
def jadd : JRat → JRat → JRat
  | nan, _ => nan
  | _, nan => nan
  | fin a, fin b => fin (a + b)
  | inf, ninf => nan
  | ninf, inf => nan
  | inf, _ => inf
  | _, inf => inf
  | ninf, _ => ninf
  | _, ninf => ninf

/-- IEEE subtraction. -/
def jsub (a b : JRat) : JRat := jadd a (jneg b)

/-- IEEE multiplication. -/
def jmul : JRat → JRat → JRat
  | nan, _ => nan
  | _, nan => nan
  | fin a, fin b => fin (a * b)
  | fin a, inf => if 0 < a then inf else if a < 0 then ninf else nan
  | inf, fin a => if 0 < a then inf else if a < 0 then ninf else nan
  | fin a, ninf => if 0 < a then ninf else if a < 0 then inf else nan
  | ninf, fin a => if 0 < a then ninf else if a < 0 then inf else nan
  | inf, inf => inf
  | inf, ninf => ninf
  | ninf, inf => ninf
  | ninf, ninf => inf

/-- IEEE division (divisor `fin 0` treated as `+0`, the only zero sign
reached here). -/
def jdiv : JRat → JRat → JRat
  | nan, _ => nan
  | _, nan => nan
  | fin a, fin b =>
    if b = 0 then (if 0 < a then inf else if a < 0 then ninf else nan)
    else fin (a / b)
  | fin _, inf => fin 0
  | fin _, ninf => fin 0
  | inf, fin b => if 0 ≤ b then inf else ninf
  | ninf, fin b => if 0 ≤ b then ninf else inf
  | inf, _ => nan
  | ninf, _ => nan

/-- IEEE `<=` comparison (any comparison with NaN is false). -/
def jle : JRat → JRat → Bool
  | nan, _ => false
  | _, nan => false
  | fin a, fin b => a ≤ b
  | ninf, _ => true
  | _, inf => true
  | inf, _ => false
  | fin _, ninf => false

end JRat

/-- The finite-argument behaviour of the JavaScript `Math` functions the
curve evaluates (their values on finite doubles, as exact rationals). -/
structure JSMath where
  tan : ℚ → ℚ
  cos : ℚ → ℚ
  sin : ℚ → ℚ
  sqrt : ℚ → ℚ

/-- `Math.tan` lifted to special values: NaN on any non-finite input. -/
def jtan (m : JSMath) : JRat → JRat
  | .fin a => .fin (m.tan a)
  | _ => .nan

/-- `Math.cos` lifted to special values. -/
def jcos (m : JSMath) : JRat → JRat
  | .fin a => .fin (m.cos a)
  | _ => .nan

/-- `Math.sin` lifted to special values. -/
def jsin (m : JSMath) : JRat → JRat
  | .fin a => .fin (m.sin a)
  | _ => .nan

/-- `Math.sqrt` lifted to special values: NaN for negative or NaN input,
+Infinity for +Infinity. -/
def jsqrt (m : JSMath) : JRat → JRat
  | .fin a => if a < 0 then .nan else .fin (m.sqrt a)
  | .inf => .inf
  | _ => .nan

/-- `helixAngleRad` (line 148): `(helixAngle * Math.PI) / 180`. -/
def helixAngleRadJ (helixAngle : ℚ) : JRat :=
  JRat.jdiv (JRat.jmul (.fin helixAngle) (.fin jsPI)) (.fin 180)

/-- `helixPitch` (line 149):
`Math.PI * effectiveDiameter / Math.tan(helixAngleRad)`. -/
def fluteHelixPitch (m : JSMath) (effD helixAngle : ℚ) : JRat :=
  JRat.jdiv (JRat.jmul (.fin jsPI) (.fin effD)) (jtan m (helixAngleRadJ helixAngle))

/-- The state of a constructed `UnifiedHelixAndExtensionCurve`
(`src/lib/drillGenerator.ts`, lines 233-256): the six constructor
arguments plus the two fields the constructor computes. -/
structure UnifiedCurve where
  radius : JRat
  helixHeight : JRat
  helixPitch : JRat
  baseAngle : JRat
  startY : JRat
  extensionLength : JRat
  helixTotalRevolutions : JRat
  totalLength : JRat
deriving DecidableEq, Repr

/-- The `UnifiedHelixAndExtensionCurve` constructor (lines 237-256):
`helixTotalRevolutions = helixHeight / helixPitch` and
`totalLength = helixTotalRevolutions * (2πr + pitch² / 2πr) + extensionLength`. -/
def mkUnifiedCurve (radius helixHeight helixPitch baseAngle startY extensionLength : JRat) :
    UnifiedCurve :=
  let revs := JRat.jdiv helixHeight helixPitch
  let twoPiR := JRat.jmul (JRat.jmul (.fin 2) (.fin jsPI)) radius
  let helixLength := JRat.jmul revs
    (JRat.jadd twoPiR (JRat.jdiv (JRat.jmul helixPitch helixPitch) twoPiR))
  { radius := radius, helixHeight := helixHeight, helixPitch := helixPitch,
    baseAngle := baseAngle, startY := startY, extensionLength := extensionLength,
    helixTotalRevolutions := revs,
    totalLength := JRat.jadd helixLength extensionLength }

/-- `UnifiedHelixAndExtensionCurve.getPoint` (lines 258-321), returning
the (x, y, z) coordinate triple. -/
def getPoint (m : JSMath) (c : UnifiedCurve) (t : JRat) : JRat × JRat × JRat :=
  let extensionRatio := JRat.jdiv c.extensionLength c.totalLength
  if JRat.jle t extensionRatio then
    let extensionT := JRat.jdiv t extensionRatio
    let pitchFactor := JRat.jdiv c.helixPitch (JRat.jmul (.fin 2) (.fin jsPI))
    let tangentX := JRat.jmul (JRat.jneg c.radius) (jsin m c.baseAngle)
    let tangentY := pitchFactor
    let tangentZ := JRat.jmul c.radius (jcos m c.baseAngle)
    let tangentLength := jsqrt m (JRat.jadd
      (JRat.jadd (JRat.jmul tangentX tangentX) (JRat.jmul tangentY tangentY))
      (JRat.jmul tangentZ tangentZ))
    let ntX := JRat.jdiv tangentX tangentLength
    let ntY := JRat.jdiv tangentY tangentLength
    let ntZ := JRat.jdiv tangentZ tangentLength
    let hsX := JRat.jmul c.radius (jcos m c.baseAngle)
    let hsY := c.startY
    let hsZ := JRat.jmul c.radius (jsin m c.baseAngle)
    let eX := JRat.jadd hsX (JRat.jmul ntX c.extensionLength)
    let eY := JRat.jsub hsY (JRat.jmul ntY c.extensionLength)
    let eZ := JRat.jadd hsZ (JRat.jmul ntZ c.extensionLength)
    (JRat.jadd eX (JRat.jmul (JRat.jsub hsX eX) extensionT),
     JRat.jadd eY (JRat.jmul (JRat.jsub hsY eY) extensionT),
     JRat.jadd eZ (JRat.jmul (JRat.jsub hsZ eZ) extensionT))
  else
    let helixT := JRat.jdiv (JRat.jsub t extensionRatio)
      (JRat.jsub (.fin 1) extensionRatio)
    let angle := JRat.jsub c.baseAngle (JRat.jmul helixT
      (JRat.jmul c.helixTotalRevolutions (JRat.jmul (.fin 2) (.fin jsPI))))
    let y := JRat.jadd c.startY (JRat.jmul helixT c.helixHeight)
    (JRat.jmul c.radius (jcos m angle), y, JRat.jmul c.radius (jsin m angle))

/-! ## 2D projection extractor

`extractEdgesFromObject` (unnamed source file `part_015`, lines 445-583)
and `addSideView` (lines 379-434), embedded as pure functions.  The scene
object is modelled as the flat list of children visited by
`object.traverse` (a deterministic depth-first walk): a mesh child
carries the positions produced by `THREE.EdgesGeometry(geometry, 30)`
(already paired into segments — the source reads them six floats at a
time), its world matrix, and the `radiusTop/radiusBottom/height/radialSegments`
constructor parameters when the geometry is a `CylinderGeometry` or
`ConeGeometry`; a line child carries its polyline points and world
matrix.  `Array.prototype.sort` (stable since ES2019) is modelled as a
stable insertion sort on the same comparator, and the `Set<string>` of
drawn-region keys as a list of rounded-coordinate quadruples with
membership lookup. -/

/-- A 3D point with named coordinates (`THREE.Vector3`). -/
structure V3 where
  x : ℚ
  y : ℚ
  z : ℚ
deriving DecidableEq, Repr

/-- A 4x4 world matrix (`THREE.Matrix4`), row-major `m(row)(col)`. -/
structure Mat4 where
  m11 : ℚ
  m12 : ℚ
  m13 : ℚ
  m14 : ℚ
  m21 : ℚ
  m22 : ℚ
  m23 : ℚ
  m24 : ℚ
  m31 : ℚ
  m32 : ℚ
  m33 : ℚ
  m34 : ℚ
  m41 : ℚ
  m42 : ℚ
  m43 : ℚ
  m44 : ℚ
deriving DecidableEq, Repr

/-- `THREE.Vector3.applyMatrix4`: affine transform with perspective
divide. -/
def applyMatrix4 (mw : Mat4) (v : V3) : V3 :=
  let w := 1 / (mw.m41 * v.x + mw.m42 * v.y + mw.m43 * v.z + mw.m44)
  ⟨(mw.m11 * v.x + mw.m12 * v.y + mw.m13 * v.z + mw.m14) * w,
   (mw.m21 * v.x + mw.m22 * v.y + mw.m23 * v.z + mw.m24) * w,
   (mw.m31 * v.x + mw.m32 * v.y + mw.m33 * v.z + mw.m34) * w⟩

/-- An extracted edge segment. -/
structure EdgeSeg where
  start : V3
  stop : V3
deriving DecidableEq, Repr

/-- The `parameters` object of a `CylinderGeometry` / `ConeGeometry`. -/
structure CylGeomParams where
  radiusTop : ℚ
  radiusBottom : ℚ
  height : ℚ
  radialSegments : ℕ
deriving DecidableEq, Repr

/-- One child visited by `object.traverse`. -/
inductive SceneChild where
  | mesh (edgePairs : List (V3 × V3)) (matrixWorld : Mat4)
      (cylParams : Option CylGeomParams) : SceneChild
  | line (points : List V3) (matrixWorld : Mat4) : SceneChild
deriving DecidableEq, Repr

/-- The per-edge filter of `extractEdgesFromObject` (lines 463-494):
world-transform the pair, then keep it when it is significant
(`length > 0.1`) and vertical, horizontal, outline or circular. -/
def meshEdgeFilter (m : JSMath) (mw : Mat4) (pr : V3 × V3) : Option EdgeSeg :=
  let start := applyMatrix4 mw pr.1
  let stop := applyMatrix4 mw pr.2
  let dx := stop.x - start.x
  let dy := stop.y - start.y
  let dz := stop.z - start.z
  let edgeLength := m.sqrt (dx * dx + dy * dy + dz * dz)
  let dirY := dy / edgeLength
  let isSignificant := edgeLength > 1/10
  let isVertical := |stop.z - start.z| > |stop.x - start.x|
  let isHorizontal := |stop.x - start.x| > |stop.z - start.z|
  let isOutline := |stop.x - start.x| < 1/100 ∨ |stop.z - start.z| < 1/100
  let isCircular := |dirY| < 1/10
  if isSignificant ∧ (isVertical ∨ isHorizontal ∨ isOutline ∨ isCircular) then
    some ⟨start, stop⟩
  else none

/-- The synthesized top/bottom circle edges for cylinder and cone
primitives (lines 496-549): `radius = radiusTop || radiusBottom`,
`segments = radialSegments || 32`, with one top and one bottom chord per
facet, world-transformed. -/
def circleEdges (m : JSMath) (mw : Mat4) (cp : CylGeomParams) : List EdgeSeg :=
  let radius := if cp.radiusTop = 0 then cp.radiusBottom else cp.radiusTop
  let segments := if cp.radialSegments = 0 then 32 else cp.radialSegments
  (List.range segments).flatMap (fun i =>
    let angle1 := ((i : ℚ) / (segments : ℚ)) * jsPI * 2
    let angle2 := (((i : ℚ) + 1) / (segments : ℚ)) * jsPI * 2
    let topStart := applyMatrix4 mw
      ⟨radius * m.cos angle1, cp.height / 2, radius * m.sin angle1⟩
    let topEnd := applyMatrix4 mw
      ⟨radius * m.cos angle2, cp.height / 2, radius * m.sin angle2⟩
    let bottomStart := applyMatrix4 mw
      ⟨radius * m.cos angle1, -cp.height / 2, radius * m.sin angle1⟩
    let bottomEnd := applyMatrix4 mw
      ⟨radius * m.cos angle2, -cp.height / 2, radius * m.sin angle2⟩
    [⟨topStart, topEnd⟩, ⟨bottomStart, bottomEnd⟩])

/-- The helix-line reduction for `THREE.Line` children (lines 551-577):
world-transform the polyline and keep only the start segment, a middle
segment when more than four points exist, and the end segment. -/
def helixLineSegs (points : List V3) (mw : Mat4) : List EdgeSeg :=
  let keyPoints := points.map (applyMatrix4 mw)
  let n := keyPoints.length
  if 3 ≤ n then
    let d : V3 := ⟨0, 0, 0⟩
    let startSeg : EdgeSeg := ⟨keyPoints.getD 0 d, keyPoints.getD 1 d⟩
    let midSegs : List EdgeSeg :=
      if 4 < n then
        let midIndex := n / 2
        [⟨keyPoints.getD midIndex d, keyPoints.getD (midIndex + 1) d⟩]
      else []
    let endSeg : EdgeSeg := ⟨keyPoints.getD (n - 2) d, keyPoints.getD (n - 1) d⟩
    startSeg :: midSegs ++ [endSeg]
  else []

/-- `extractEdgesFromObject` (lines 445-583): silhouette edges from every
mesh child (filtered edge pairs, then synthesized circles for
cylinder/cone geometries), followed by the reduced helix lines from every
line child, in traversal order. -/
def extractEdgesFromObject (m : JSMath) (children : List SceneChild) : List EdgeSeg :=
  let silhouetteEdges := children.flatMap (fun child =>
    match child with
    | .mesh edgePairs mw cylParams =>
      edgePairs.filterMap (meshEdgeFilter m mw) ++
        (match cylParams with
         | some cp => circleEdges m mw cp
         | none => [])
    | .line _ _ => [])
  let helixLines := children.flatMap (fun child =>
    match child with
    | .mesh _ _ _ => []
    | .line points mw => helixLineSegs points mw)
  silhouetteEdges ++ helixLines

/-- The depth key used by `addSideView`: the average X coordinate of a
segment. -/
def avgX (e : EdgeSeg) : ℚ := (e.start.x + e.stop.x) / 2

/-- Stable insertion of one edge into a list sorted by decreasing
`avgX`: a new edge moves ahead only of strictly shallower edges, so ties
keep their original relative order (the behaviour of the stable ES2019
`Array.prototype.sort` with the comparator `(a, b) => bX - aX`). -/
def insertByDepth (e : EdgeSeg) : List EdgeSeg → List EdgeSeg
  | [] => [e]
  | f :: rest =>
    if avgX f < avgX e then e :: f :: rest else f :: insertByDepth e rest

/-- The sort on line 393 of `addSideView`, as a stable sort by
decreasing average X. -/
def sortEdgesByDepth (edges : List EdgeSeg) : List EdgeSeg :=
  edges.foldl (fun acc e => insertByDepth e acc) []

/-- `toFixed(2)` as used for the hidden-line keys, modelled as rounding
to hundredths. -/
def toFixed2 (q : ℚ) : ℤ := round (q * 100)

/-- `projectPointToPlane` (lines 436-442): subtract from the point its
component along the normalized camera direction. -/
def projectPointToPlane (m : JSMath) (point cameraPos : V3) : V3 :=
  let len := m.sqrt (cameraPos.x * cameraPos.x + cameraPos.y * cameraPos.y +
    cameraPos.z * cameraPos.z)
  let n : V3 := ⟨cameraPos.x / len, cameraPos.y / len, cameraPos.z / len⟩
  let vx := point.x - cameraPos.x
  let vy := point.y - cameraPos.y
  let vz := point.z - cameraPos.z
  let distance := vx * n.x + vy * n.y + vz * n.z
  ⟨point.x - n.x * distance, point.y - n.y * distance, point.z - n.z * distance⟩

/-- `addSideView` (lines 379-434), returning the list of `drawLine`
calls it makes: extract the edges, sort them front-to-back by average X,
project to the YZ plane with the side camera at (1000, 0, 0), and draw a
segment only when neither its key nor its reversed key (projected
coordinates rounded to hundredths) was drawn before. -/
def addSideView (m : JSMath) (children : List SceneChild) (x y scale : ℚ) :
    List (ℚ × ℚ × ℚ × ℚ) :=
  let cameraPos : V3 := ⟨1000, 0, 0⟩
  let sortedEdges := sortEdgesByDepth (extractEdgesFromObject m children)
  let step := fun (st : List (ℤ × ℤ × ℤ × ℤ) × List (ℚ × ℚ × ℚ × ℚ)) (e : EdgeSeg) =>
    let sp := projectPointToPlane m e.start cameraPos
    let ep := projectPointToPlane m e.stop cameraPos
    let key := (toFixed2 sp.y, toFixed2 sp.z, toFixed2 ep.y, toFixed2 ep.z)
    let reverseKey := (toFixed2 ep.y, toFixed2 ep.z, toFixed2 sp.y, toFixed2 sp.z)
    if key ∉ st.1 ∧ reverseKey ∉ st.1 then
      (key :: st.1, st.2 ++ [(x + sp.y * scale, y + sp.z * scale,
        x + ep.y * scale, y + ep.z * scale)])
    else st
  (sortedEdges.foldl step ([], [])).2

/-! ## Expected shapes of the merged blank

Reference descriptions of what `mergeBufferGeometries` produces, used to
state the concatenation property: flattened attribute lists (with
zero-filled regions for absent attributes) and index entries shifted by
the number of vertices in all preceding geometries. -/

/-- The concatenation of the inputs' position lists. -/
def flatPositions (gs : List BufferGeometry) : List Vec3 :=
  gs.flatMap (fun g => g.position.getD [])

/-- The concatenation of the inputs' normal lists, an absent normal
attribute contributing zeroes for each of that input's vertices. -/
def flatNormals (gs : List BufferGeometry) : List Vec3 :=
  gs.flatMap (fun g => g.normal.getD (List.replicate (posCount g) (0, 0, 0)))

/-- The concatenation of the inputs' uv lists, an absent uv attribute
contributing zeroes for each of that input's vertices. -/
def flatUvs (gs : List BufferGeometry) : List Vec2 :=
  gs.flatMap (fun g => g.uv.getD (List.replicate (posCount g) (0, 0)))

/-- The concatenation of the inputs' index lists, each entry shifted by
the total vertex count of all preceding geometries. -/
def offsetIndices (off : ℕ) : List BufferGeometry → List ℕ
  | [] => []
  | g :: rest =>
    (g.index.getD []).map (fun i => i + off) ++ offsetIndices (off + posCount g) rest

/-- The total vertex count of a list of merge inputs. -/
def vcount (gs : List BufferGeometry) : ℕ := (gs.map posCount).sum

/-- The total index count of a list of merge inputs. -/
def icount (gs : List BufferGeometry) : ℕ :=
  (gs.map (fun g => (g.index.getD []).length)).sum

/-- Well-formedness of a merge input: the position attribute is present
and any normal/uv attribute has one entry per vertex (all three.js
primitive geometries satisfy this). -/
def attrSized (g : BufferGeometry) : Bool :=
  g.position.isSome &&
    (match g.normal with
     | some ns => ns.length == posCount g
     | none => true) &&
    (match g.uv with
     | some us => us.length == posCount g
     | none => true)

/-! ## Concrete instantiations used in counterexamples and witnesses -/

/-- A well-behaved instantiation of the external operations: every
constructor succeeds and records its size arguments in a one-vertex
position, and the CSG subtraction returns its first argument. -/
def extBase : Externals where
  tan := fun _ => 1
  cylinderGeometry := fun rt rb h _ => .ok ⟨some [(rt, h, rb)], none, none, none, none, none⟩
  coneGeometry := fun r h _ => .ok ⟨some [(r, h, 0)], none, none, none, none, none⟩
  circleGeometry := fun r _ => .ok ⟨some [(r, 0, 0)], none, none, none, none, none⟩
  rotateX90 := fun g => g
  tubeGeometry := fun tp => .ok ⟨some [(tp.radius, tp.helixHeight, tp.tubeRadius)], none, none, none, none, none⟩
  toNonIndexed := fun g => g
  csgSubtract := fun a _ => .ok a
  computeVertexNormals := fun g => List.replicate (posCount g) (0, 1, 0)
  computeBoundingBox := fun _ => ⟨(0, 0, 0), (1, 1, 1)⟩
  computeBoundingSphere := fun _ => ⟨(0, 0, 0), 1⟩

/-- The externals with a boolean backend that always throws. -/
def extCsgFail : Externals :=
  { extBase with csgSubtract := fun _ _ => .error "CSG backend failure" }

/-- Externals whose cylinder constructor throws exactly on the height-30
call (the shank of the parameter sets below), leaving the fallback
constructor call observable. -/
def extCylFail30 : Externals :=
  { extBase with
    cylinderGeometry := fun rt rb h _ =>
      if h = 30 then .error "malformed intermediate geometry"
      else .ok ⟨some [(rt, h, rb)], none, none, none, none, none⟩ }

/-- The spec's round-trip scenario parameters with a flat (180°) tip:
diameter 10, length 100, shank 10×30, 2 flutes, flute length 60,
non-cutting length 7, helix 30°. -/
def pRoundTrip : DrillParameters :=
  ⟨10, 100, 10, 30, 2, 60, 7, 180, 30, "hss", "h8", "polished"⟩

/-- The round-trip parameters with the conical 118° tip. -/
def pConicalTip : DrillParameters := { pRoundTrip with tipAngle := 118 }

/-- The round-trip parameters with a 118° tip and five flutes (flute
count out of the validator's range). -/
def pFiveFlutes : DrillParameters := { pConicalTip with fluteCount := 5 }

/-- The round-trip parameters with zero flutes. -/
def pZeroFlutes : DrillParameters := { pRoundTrip with fluteCount := 0 }

/-- The blank the pipeline produces for `pZeroFlutes` under `extBase`. -/
def blankZero : BufferGeometry :=
  match buildBlank extBase pZeroFlutes with
  | .ok g => g
  | .error _ => default

/-- The blank the pipeline produces for `pConicalTip` under
`extCsgFail`. -/
def blankFluted : BufferGeometry :=
  match buildBlank extCsgFail pConicalTip with
  | .ok g => g
  | .error _ => default

/-- A three-vertex indexed triangle at z = 0. -/
def gTriA : BufferGeometry :=
  ⟨some [(0, 0, 0), (1, 0, 0), (0, 1, 0)], none, none, some [0, 1, 2], none, none⟩

/-- A three-vertex indexed triangle at z = 1. -/
def gTriB : BufferGeometry :=
  ⟨some [(0, 0, 1), (1, 0, 1), (0, 1, 1)], none, none, some [0, 1, 2], none, none⟩

/-- A geometry with no attributes at all (in particular no position). -/
def gNoAttributes : BufferGeometry := ⟨none, none, none, none, none, none⟩

/-- A stub for the finite behaviour of the JavaScript `Math` functions;
only `tan 0 = 0` (exact in IEEE arithmetic) matters below. -/
def mathStub : JSMath := ⟨fun _ => 0, fun _ => 0, fun _ => 0, fun _ => 0⟩

/-- The `UnifiedHelixAndExtensionCurve` built by `generateDrillGeometry`
for `pRoundTrip` at `helixAngle = 0`: radius 5, helix height
`(46.5 + 0) × 1.35`, the pitch from `fluteHelixPitch`, base angle 0
(first flute), flute start position −4.75, extension length 13.5. -/
def curveHelixZero : UnifiedCurve :=
  mkUnifiedCurve (.fin 5) (.fin (2511/40)) (fluteHelixPitch mathStub 10 0)
    (.fin 0) (.fin (-19/4)) (.fin (27/2))

/-- A small concrete scene: one helix polyline child under the identity
world matrix. -/
def demoChildren : List SceneChild :=
  [SceneChild.line [⟨0, 0, 0⟩, ⟨1, 1, 0⟩, ⟨2, 2, 0⟩]
    ⟨1, 0, 0, 0, 0, 1, 0, 0, 0, 0, 1, 0, 0, 0, 0, 1⟩]

/-! # Theorems -/

/-! ## C2: the minimum-length formula across its three sites -/

/-- C2, counterexample: the claim says every place that computes the
minimum length returns `round(fluteLength + shankLength + chamferHeight + 3)`.
At the round-trip parameters that formula gives 93, but
`ParameterInput.tsx` and the validator both compute 90 — the `+ 3` buffer
and the rounding exist only in `part_003`. -/
theorem c2_counterexample_min_length_sites_disagree :
    Part003.calculateMinLength pRoundTrip = 93 ∧
    ParameterInput.calculateMinLength pRoundTrip = 90 ∧
    validatorMinLength pRoundTrip = 90 ∧
    ParameterInput.calculateMinLength pRoundTrip ≠
      ((Part003.calculateMinLength pRoundTrip : ℤ) : ℚ) := by
  refine ⟨by with_unfolding_all decide, by with_unfolding_all decide,
    by with_unfolding_all decide, by with_unfolding_all decide⟩

/-- C2, amended: `part_003` computes
`round(fluteLength + shankLength + chamferHeight + 3)` (equivalently,
`round` of the validator's minimum plus the 3 mm buffer), while
`ParameterInput.tsx` and `validateDrillParameters` compute
`shankLength + fluteLength + chamferHeight` with no buffer and no
rounding. -/
theorem c2_min_length_three_sites :
    ∀ p : DrillParameters,
      Part003.calculateMinLength p = jround (validatorMinLength p + 3) ∧
      ParameterInput.calculateMinLength p = validatorMinLength p := by
  intro p
  constructor
  · unfold Part003.calculateMinLength validatorMinLength
    exact congrArg jround (by ring)
  · rfl

/-! ## C3: the flat-bottom case tipAngle = 180 -/

/-- C3, counterexample: the claim says validation accepts
`tipAngle = 180`; at the round-trip parameters (which satisfy every other
check) `validateDrillParameters` returns `false`, because its check is
`tipAngle <= 0 || tipAngle >= 180`. -/
theorem c3_counterexample_validator_rejects_180 :
    pRoundTrip.tipAngle = 180 ∧ validateDrillParameters pRoundTrip = false := by
  refine ⟨by with_unfolding_all decide, by with_unfolding_all decide⟩

/-- C3, amended: `validateDrillParameters` rejects `tipAngle = 180`
(its domain is the open interval (0, 180)); the generator itself, when
handed such parameters, does compute `tipHeight = 0` exactly and builds a
flat `CircleGeometry` end cap as the last segment instead of a cone. -/
theorem c3_tip_angle_180 :
    ∀ (tan : ℚ → ℚ) (p : DrillParameters), p.tipAngle = 180 →
      validateDrillParameters p = false ∧
      tipHeightCalc tan p = 0 ∧
      ((buildSegments tan p).getLast?).map Segment.kind = some SegmentKind.endCap := by
  intro tan p h
  refine ⟨?_, by simp [tipHeightCalc, h], ?_⟩
  · unfold validateDrillParameters
    split_ifs with h1 h2 h3 h4 h5 <;> try rfl
    exact absurd (Or.inr (le_of_eq h.symm)) h3
  · simp only [buildSegments, h]
    split_ifs <;> simp_all

/-- C3, witness: the amended statement at the round-trip parameters. -/
theorem c3_tip_angle_180_witness :
    pRoundTrip.tipAngle = 180 ∧
    (validateDrillParameters pRoundTrip = false ∧
      tipHeightCalc (fun _ => 1) pRoundTrip = 0 ∧
      ((buildSegments (fun _ => 1) pRoundTrip).getLast?).map Segment.kind =
        some SegmentKind.endCap) :=
  ⟨by with_unfolding_all decide,
    c3_tip_angle_180 (fun _ => 1) pRoundTrip (by with_unfolding_all decide)⟩

/-! ## C7: helixAngle = 0 -/

/-- C7: at `helixAngle = 0` (straight flutes per the spec, accepted by
the validator) and `diameter = 10`, the pitch of line 149 is
`π·10 / tan(0) = +Infinity`; the curve constructor then computes a NaN
total length, and every `getPoint` evaluation — at every parameter `t` —
returns (NaN, NaN, NaN), not finite coordinates.  (`Math.tan(0) = +0`
exactly in IEEE arithmetic, which `mathStub` reflects.) -/
theorem c7_helix_angle_zero_yields_nan :
    mathStub.tan 0 = 0 ∧
    fluteHelixPitch mathStub 10 0 = JRat.inf ∧
    curveHelixZero.totalLength = JRat.nan ∧
    ∀ t : JRat, getPoint mathStub curveHelixZero t = (JRat.nan, JRat.nan, JRat.nan) := by
  refine ⟨rfl, by with_unfolding_all decide, by with_unfolding_all decide, fun t => ?_⟩
  cases t <;> with_unfolding_all rfl

/-! ## C1: the axial extent of the generated solid -/

/-- C1, counterexample: at the spec's own round-trip parameters
(`length = 100`, non-cutting length 7, flat tip) the generated segment
heights sum to 83.5, not 100 — off by 16.5 mm, far beyond the claimed
1e-6 tolerance.  `generateDrillGeometry` never reads `length`; its
`totalLength` drops the `diameter × 1.35` helix lead-in margin from
`fluteLength`. -/
theorem c1_counterexample_sum_is_not_length :
    ((buildSegments (fun _ => 1) pRoundTrip).map Segment.height).sum = 167/2 ∧
    pRoundTrip.length = 100 ∧
    ¬(|(167/2 : ℚ) - 100| ≤ 1/1000000) := by
  refine ⟨by with_unfolding_all decide, by with_unfolding_all decide,
    by with_unfolding_all decide⟩

/-- C1, amended: for non-negative `nonCuttingLength` the generated
segment heights sum exactly to the code's `totalLength`
(`shankLength + chamferHeight + nonCuttingLength + flutedPartLength + tipHeight`),
which equals
`shankLength + chamferHeight + nonCuttingLength + fluteLength − 1.35 × effectiveDiameter`
— not the input parameter `length`, which the generator ignores. -/
theorem c1_segment_sum_is_totalLength :
    ∀ (tan : ℚ → ℚ) (p : DrillParameters), 0 ≤ p.nonCuttingLength →
      ((buildSegments tan p).map Segment.height).sum = totalLengthCalc tan p ∧
      totalLengthCalc tan p =
        p.shankLength + chamferHeightGen p + p.nonCuttingLength + p.fluteLength -
          27/20 * effectiveDiameter p := by
  intro tan p h
  have hch : 0 ≤ chamferHeightGen p := by
    unfold chamferHeightGen
    positivity
  have hts : p.tipAngle = 180 → tipHeightCalc tan p = 0 := fun h180 => by
    simp [tipHeightCalc, h180]
  constructor
  · have e1 : (if 0 < chamferHeightGen p then chamferHeightGen p else 0) =
        chamferHeightGen p := by
      split_ifs with hcc
      · rfl
      · exact (le_antisymm (not_lt.mp hcc) hch).symm
    have e2 : (if 0 < p.nonCuttingLength then p.nonCuttingLength else 0) =
        p.nonCuttingLength := by
      split_ifs with hnn
      · rfl
      · exact (le_antisymm (not_lt.mp hnn) h).symm
    have e3 : (if p.tipAngle ≠ 180 then tipHeightCalc tan p else 0) =
        tipHeightCalc tan p := by
      split_ifs with htt
      · rfl
      · exact (hts (not_not.mp htt)).symm
    have hsum : ((buildSegments tan p).map Segment.height).sum =
        p.shankLength + ((if 0 < chamferHeightGen p then chamferHeightGen p else 0) +
          ((if 0 < p.nonCuttingLength then p.nonCuttingLength else 0) +
            (flutedPartLengthCalc tan p +
              ((if p.tipAngle ≠ 180 then tipHeightCalc tan p else 0) + 0)))) := by
      simp only [buildSegments]
      split_ifs <;> simp [List.sum_append]
    rw [hsum, e1, e2, e3]
    unfold totalLengthCalc
    ring
  · unfold totalLengthCalc flutedPartLengthCalc
    ring

/-- C1, witness: the amended statement at the round-trip parameters. -/
theorem c1_segment_sum_is_totalLength_witness :
    (0 : ℚ) ≤ pRoundTrip.nonCuttingLength ∧
    (((buildSegments (fun _ => 1) pRoundTrip).map Segment.height).sum =
        totalLengthCalc (fun _ => 1) pRoundTrip ∧
      totalLengthCalc (fun _ => 1) pRoundTrip =
        pRoundTrip.shankLength + chamferHeightGen pRoundTrip +
          pRoundTrip.nonCuttingLength + pRoundTrip.fluteLength -
          27/20 * effectiveDiameter pRoundTrip) :=
  ⟨by with_unfolding_all decide,
    c1_segment_sum_is_totalLength (fun _ => 1) pRoundTrip (by with_unfolding_all decide)⟩

/-! ## C5: the top-level fallback cylinder -/

/-- C5, counterexample: with a backend whose shank construction throws,
the pipeline at the round-trip parameters returns the fallback cylinder —
but its height argument is `totalLength = 83.5`, not the requested
`length = 100` (the constructor stub records its height argument in the
single vertex). -/
theorem c5_counterexample_fallback_height_not_length :
    generateDrillGeometry extCylFail30 pRoundTrip =
      .ok ⟨some [(5, 167/2, 5)], none, none, none, none, none⟩ ∧
    pRoundTrip.length = 100 ∧
    (167/2 : ℚ) ≠ 100 := by
  refine ⟨by with_unfolding_all rfl, by with_unfolding_all decide,
    by with_unfolding_all decide⟩

/-- C5, amended: any exception escaping the synthesis `try` block is
caught at the top of the pipeline, which then returns the plain cylinder
`CylinderGeometry(effectiveDiameter/2, effectiveDiameter/2, totalLength, 16)`
— sized to the effective diameter and to the computed `totalLength`
(`= shank + chamfer + nonCutting + fluteLength − 1.35 × effectiveDiameter`),
which is not in general the requested overall `length`. -/
theorem c5_fallback_is_cylinder_of_totalLength :
    ∀ (ext : Externals) (p : DrillParameters) (e : String),
      generateDrillGeometryTry ext p = .error e →
      generateDrillGeometry ext p =
        ext.cylinderGeometry (effectiveDiameter p / 2) (effectiveDiameter p / 2)
          (totalLengthCalc ext.tan p) MIN_SEGMENTS ∧
      totalLengthCalc ext.tan p =
        p.shankLength + chamferHeightGen p + p.nonCuttingLength + p.fluteLength -
          27/20 * effectiveDiameter p := by
  intro ext p e htry
  constructor
  · unfold generateDrillGeometry
    rw [htry]
  · unfold totalLengthCalc flutedPartLengthCalc
    ring

/-- C5, witness: the amended statement under the failing backend at the
round-trip parameters. -/
theorem c5_fallback_is_cylinder_of_totalLength_witness :
    generateDrillGeometryTry extCylFail30 pRoundTrip =
      .error "malformed intermediate geometry" ∧
    (generateDrillGeometry extCylFail30 pRoundTrip =
        extCylFail30.cylinderGeometry (effectiveDiameter pRoundTrip / 2)
          (effectiveDiameter pRoundTrip / 2)
          (totalLengthCalc extCylFail30.tan pRoundTrip) MIN_SEGMENTS ∧
      totalLengthCalc extCylFail30.tan pRoundTrip =
        pRoundTrip.shankLength + chamferHeightGen pRoundTrip +
          pRoundTrip.nonCuttingLength + pRoundTrip.fluteLength -
          27/20 * effectiveDiameter pRoundTrip) :=
  ⟨by with_unfolding_all rfl,
    c5_fallback_is_cylinder_of_totalLength extCylFail30 pRoundTrip
      "malformed intermediate geometry" (by with_unfolding_all rfl)⟩

/-! ## C6: flute count bounds and the fluteCount = 0 path -/

/-- C6: a flute count outside [1, 4] always fails validation (every
early return of `validateDrillParameters` is `false`, and the final
`true` requires passing the flute-count check); and with `fluteCount = 0`
the boolean stage is skipped entirely, so the pipeline returns the merged
blank itself, vertex-for-vertex. -/
theorem c6_flute_count_bounds_and_zero_skips_csg :
    (∀ p : DrillParameters, p.fluteCount < 1 ∨ p.fluteCount > 4 →
      validateDrillParameters p = false) ∧
    (∀ (ext : Externals) (p : DrillParameters) (b : BufferGeometry),
      p.fluteCount = 0 → buildBlank ext p = .ok b →
      generateDrillGeometry ext p = .ok b) := by
  constructor
  · intro p hp
    unfold validateDrillParameters
    split_ifs <;> rfl
  · intro ext p b h0 hb
    unfold generateDrillGeometry generateDrillGeometryTry
    rw [hb, h0]
    simp

/-- C6, witness: five flutes fail validation; zero flutes return the
blank unchanged. -/
theorem c6_flute_count_witness :
    (pFiveFlutes.fluteCount > 4 ∧ validateDrillParameters pFiveFlutes = false) ∧
    (pZeroFlutes.fluteCount = 0 ∧ buildBlank extBase pZeroFlutes = .ok blankZero ∧
      generateDrillGeometry extBase pZeroFlutes = .ok blankZero) :=
  ⟨⟨by with_unfolding_all decide,
      c6_flute_count_bounds_and_zero_skips_csg.1 pFiveFlutes
        (Or.inr (by with_unfolding_all decide))⟩,
    ⟨rfl, by with_unfolding_all rfl,
      c6_flute_count_bounds_and_zero_skips_csg.2 extBase pZeroFlutes blankZero rfl
        (by with_unfolding_all rfl)⟩⟩

/-! ## Helper lemmas about merging -/

/-- When every input has a position attribute, the counting pass
succeeds and returns the per-geometry vertex counts. -/
theorem getPositionCounts_ok (gs : List BufferGeometry)
    (h : ∀ g ∈ gs, g.position.isSome) :
    getPositionCounts gs = .ok (gs.map posCount) := by
  induction gs with
  | nil => rfl
  | cons g rest ih =>
    obtain ⟨l, hl⟩ := Option.isSome_iff_exists.mp (h g (List.mem_cons_self g rest))
    have hrest := ih (fun g2 hg2 => h g2 (List.mem_cons_of_mem g hg2))
    simp only [getPositionCounts, hl, hrest, List.map_cons]
    simp [posCount, hl]

/-- A successful merge always carries a position attribute. -/
theorem merge_ok_position_isSome (gs : List BufferGeometry) (b : BufferGeometry)
    (h : mergeBufferGeometries gs = .ok b) : b.position.isSome := by
  unfold mergeBufferGeometries at h
  cases hg : getPositionCounts gs with
  | error e => rw [hg] at h; exact Except.noConfusion h
  | ok counts =>
    rw [hg] at h
    simp only [Except.ok.injEq] at h
    rw [← h]
    rfl

/-- When every input has a position attribute, the merge succeeds and
the result has a position attribute. -/
theorem merge_ok_of_isSome (gs : List BufferGeometry)
    (h : ∀ g ∈ gs, g.position.isSome) :
    ∃ b, mergeBufferGeometries gs = .ok b ∧ b.position.isSome := by
  unfold mergeBufferGeometries
  rw [getPositionCounts_ok gs h]
  exact ⟨_, rfl, rfl⟩

/-! ## C4: CSG failure falls back to the blank -/

/-- C4: when the boolean backend throws on every call (and each
successfully built flute tube is a well-formed mesh), the pipeline does
not propagate the exception: it returns exactly the un-fluted blank it
had built, which is a real mesh with a position attribute — the error is
only logged. -/
theorem c4_csg_throw_returns_blank :
    ∀ (ext : Externals) (p : DrillParameters) (b : BufferGeometry),
      (∀ a c, ∃ e, ext.csgSubtract a c = .error e) →
      (∀ (tp : TubeParams) (g : BufferGeometry),
        ext.tubeGeometry tp = .ok g → g.position.isSome) →
      buildBlank ext p = .ok b →
      generateDrillGeometry ext p = .ok b ∧ b.position.isSome := by
  intro ext p b hcsg htube hb
  have hbpos : b.position.isSome := by
    unfold buildBlank at hb
    cases hbg : buildGeometries ext (buildSegments ext.tan p) with
    | error e => rw [hbg] at hb; exact Except.noConfusion hb
    | ok gs => rw [hbg] at hb; exact merge_ok_position_isSome gs b hb
  refine ⟨?_, hbpos⟩
  unfold generateDrillGeometry generateDrillGeometryTry
  rw [hb]
  by_cases hf : 0 < p.fluteCount
  · simp only [if_pos hf]
    set fgs := (List.range p.fluteCount.toNat).filterMap
      (fun flute => (ext.tubeGeometry (fluteTubeParams ext p flute)).toOption) with hfgs
    by_cases hlen : 0 < fgs.length
    · simp only [if_pos hlen]
      have hmem : ∀ g ∈ fgs, g.position.isSome := by
        intro g hg
        rw [hfgs] at hg
        obtain ⟨flute, _, hfl⟩ := List.mem_filterMap.mp hg
        cases htg : ext.tubeGeometry (fluteTubeParams ext p flute) with
        | ok g2 =>
          rw [htg] at hfl
          simp only [Except.toOption, Option.some.injEq] at hfl
          subst hfl
          exact htube _ _ htg
        | error e =>
          rw [htg] at hfl
          simp [Except.toOption] at hfl
      obtain ⟨mf, hmf, _⟩ := merge_ok_of_isSome fgs hmem
      obtain ⟨e, he⟩ := hcsg (ext.toNonIndexed b) (ext.toNonIndexed mf)
      simp only [hmf, he]
    · simp only [if_neg hlen]
  · simp only [if_neg hf]

/-- C4, witness: the statement under the always-throwing backend at the
conical-tip round-trip parameters. -/
theorem c4_csg_throw_returns_blank_witness :
    buildBlank extCsgFail pConicalTip = .ok blankFluted ∧
    (generateDrillGeometry extCsgFail pConicalTip = .ok blankFluted ∧
      blankFluted.position.isSome) :=
  ⟨by with_unfolding_all rfl,
    c4_csg_throw_returns_blank extCsgFail pConicalTip blankFluted
      (fun a c => ⟨"CSG backend failure", rfl⟩)
      (fun tp g h => by cases h; rfl)
      (by with_unfolding_all rfl)⟩

/-! ## C8: the merged blank -/

theorem vcount_cons (g : BufferGeometry) (rest : List BufferGeometry) :
    vcount (g :: rest) = posCount g + vcount rest := by
  simp [vcount]

theorem icount_cons (g : BufferGeometry) (rest : List BufferGeometry) :
    icount (g :: rest) = (g.index.getD []).length + icount rest := by
  simp [icount]

/-- Writing `vals` into a buffer that is exactly `A` followed by enough
zero padding appends `vals` after `A` and leaves the remaining padding. -/
theorem writeAt_padding {α : Type} (A vals : List α) (c r n : ℕ) (z : α)
    (hn : n = A.length) (hc : c = vals.length) :
    writeAt (A ++ List.replicate (c + r) z) n vals =
      (A ++ vals) ++ List.replicate r z := by
  subst hn
  subst hc
  unfold writeAt
  rw [List.take_left, List.drop_append]
  have hdrop : (List.replicate (vals.length + r) z).drop vals.length =
      List.replicate r z := by
    rw [List.replicate_add]
    have h2 := List.drop_left (List.replicate vals.length z) (List.replicate r z)
    rwa [List.length_replicate] at h2
  rw [hdrop]

/-- Splitting a zero-padded buffer. -/
theorem append_replicate_split {α : Type} (N : List α) (c r : ℕ) (z : α) :
    N ++ List.replicate (c + r) z = (N ++ List.replicate c z) ++ List.replicate r z := by
  rw [List.replicate_add, List.append_assoc]

/-- One step of the merge loop, with the state updates exposed. -/
theorem mergeLoop_cons_eq (g : BufferGeometry) (rest : List BufferGeometry)
    (vOff iOff : ℕ) (P N : List Vec3) (U : List Vec2) (I : Option (List ℕ)) :
    mergeLoop (g :: rest) vOff iOff P N U I =
      mergeLoop rest (vOff + (g.position.getD []).length)
        (match g.index, I with
         | some ix, some _ => iOff + ix.length
         | _, _ => iOff)
        (writeAt P vOff (g.position.getD []))
        (match g.normal with
         | some ns => writeAt N vOff ns
         | none => N)
        (match g.uv with
         | some us => writeAt U vOff us
         | none => U)
        (match g.index, I with
         | some ix, some acc => some (writeAt acc iOff (ix.map (fun i => i + vOff)))
         | _, _ => I) := by
  simp only [mergeLoop]
  cases g.index <;> cases I <;> rfl

/-- The merge loop on an initial state consisting of already-written
prefixes followed by exact zero padding, with an index buffer present:
it appends the concatenated attributes and the shifted indices. -/
theorem mergeLoop_spec_some (gs : List BufferGeometry) :
    ∀ (A N : List Vec3) (U : List Vec2) (B : List ℕ),
      (∀ g ∈ gs, attrSized g = true) →
      N.length = A.length → U.length = A.length →
      mergeLoop gs A.length B.length
        (A ++ List.replicate (vcount gs) ((0 : ℚ), (0 : ℚ), (0 : ℚ)))
        (N ++ List.replicate (vcount gs) ((0 : ℚ), (0 : ℚ), (0 : ℚ)))
        (U ++ List.replicate (vcount gs) ((0 : ℚ), (0 : ℚ)))
        (some (B ++ List.replicate (icount gs) 0)) =
      (A ++ flatPositions gs, N ++ flatNormals gs, U ++ flatUvs gs,
        some (B ++ offsetIndices A.length gs)) := by
  induction gs with
  | nil =>
    intro A N U B _ _ _
    simp [mergeLoop, vcount, icount, flatPositions, flatNormals, flatUvs, offsetIndices]
  | cons g rest ih =>
    intro A N U B hwf hN hU
    have hwfg := hwf g (List.mem_cons_self g rest)
    have hwfr : ∀ g2 ∈ rest, attrSized g2 = true :=
      fun g2 h2 => hwf g2 (List.mem_cons_of_mem g h2)
    have hgp : g.position.isSome := by
      unfold attrSized at hwfg
      simp only [Bool.and_eq_true] at hwfg
      exact hwfg.1.1
    obtain ⟨pos, hpos⟩ := Option.isSome_iff_exists.mp hgp
    have hposlen : posCount g = pos.length := by simp [posCount, hpos]
    have hnormal_len : ∀ ns, g.normal = some ns → ns.length = posCount g := by
      intro ns hns
      have h2 := hwfg
      unfold attrSized at h2
      rw [hns] at h2
      simp only [Bool.and_eq_true, beq_iff_eq] at h2
      exact h2.1.2
    have huv_len : ∀ us, g.uv = some us → us.length = posCount g := by
      intro us hus
      have h2 := hwfg
      unfold attrSized at h2
      rw [hus] at h2
      simp only [Bool.and_eq_true, beq_iff_eq] at h2
      exact h2.2
    rw [mergeLoop_cons_eq, vcount_cons, icount_cons]
    simp only [hpos, Option.getD_some]
    rw [writeAt_padding A pos (posCount g) (vcount rest) A.length _ rfl hposlen]
    have hNwrite : (match g.normal with
        | some ns => writeAt (N ++ List.replicate (posCount g + vcount rest)
            ((0 : ℚ), (0 : ℚ), (0 : ℚ))) A.length ns
        | none => N ++ List.replicate (posCount g + vcount rest)
            ((0 : ℚ), (0 : ℚ), (0 : ℚ))) =
        (N ++ g.normal.getD (List.replicate (posCount g) ((0 : ℚ), (0 : ℚ), (0 : ℚ)))) ++
          List.replicate (vcount rest) ((0 : ℚ), (0 : ℚ), (0 : ℚ)) := by
      cases hgn : g.normal with
      | some ns =>
        dsimp only [Option.getD_some]
        exact writeAt_padding N ns (posCount g) (vcount rest) A.length _ hN.symm
          (hnormal_len ns hgn).symm
      | none =>
        dsimp only [Option.getD_none]
        exact append_replicate_split N (posCount g) (vcount rest) _
    have hUwrite : (match g.uv with
        | some us => writeAt (U ++ List.replicate (posCount g + vcount rest)
            ((0 : ℚ), (0 : ℚ))) A.length us
        | none => U ++ List.replicate (posCount g + vcount rest) ((0 : ℚ), (0 : ℚ))) =
        (U ++ g.uv.getD (List.replicate (posCount g) ((0 : ℚ), (0 : ℚ)))) ++
          List.replicate (vcount rest) ((0 : ℚ), (0 : ℚ)) := by
      cases hgu : g.uv with
      | some us =>
        dsimp only [Option.getD_some]
        exact writeAt_padding U us (posCount g) (vcount rest) A.length _ hU.symm
          (huv_len us hgu).symm
      | none =>
        dsimp only [Option.getD_none]
        exact append_replicate_split U (posCount g) (vcount rest) _
    have hIwrite : (match g.index,
          some (B ++ List.replicate ((g.index.getD []).length + icount rest) 0) with
        | some ix, some acc => some (writeAt acc B.length (ix.map (fun i => i + A.length)))
        | _, _ => some (B ++ List.replicate ((g.index.getD []).length + icount rest) 0)) =
        some ((B ++ (g.index.getD []).map (fun i => i + A.length)) ++
          List.replicate (icount rest) 0) := by
      cases hgi : g.index with
      | some ix =>
        dsimp only [Option.getD_some]
        rw [writeAt_padding B (ix.map (fun i => i + A.length)) ix.length (icount rest)
          B.length 0 rfl (by simp)]
      | none =>
        dsimp only [Option.getD_none]
        simp
    have hIoff : (match g.index,
          (some (B ++ List.replicate ((g.index.getD []).length + icount rest) 0) :
            Option (List ℕ)) with
        | some ix, some _ => B.length + ix.length
        | _, _ => B.length) =
        (B ++ (g.index.getD []).map (fun i => i + A.length)).length := by
      cases g.index <;> simp
    rw [hNwrite, hUwrite, hIwrite, hIoff]
    have hvlen : A.length + pos.length = (A ++ pos).length := by simp
    rw [hvlen]
    have hflatP : flatPositions (g :: rest) = pos ++ flatPositions rest := by
      simp [flatPositions, hpos]
    have hflatN : flatNormals (g :: rest) =
        g.normal.getD (List.replicate (posCount g) ((0 : ℚ), (0 : ℚ), (0 : ℚ))) ++
          flatNormals rest := by
      simp [flatNormals]
    have hflatU : flatUvs (g :: rest) =
        g.uv.getD (List.replicate (posCount g) ((0 : ℚ), (0 : ℚ))) ++ flatUvs rest := by
      simp [flatUvs]
    have hoff : offsetIndices A.length (g :: rest) =
        (g.index.getD []).map (fun i => i + A.length) ++
          offsetIndices (A.length + posCount g) rest := rfl
    rw [hflatP, hflatN, hflatU, hoff, hposlen, hvlen,
      ← List.append_assoc A pos, ← List.append_assoc N _, ← List.append_assoc U _,
      ← List.append_assoc B _]
    exact ih (A ++ pos) (N ++ _) (U ++ _) (B ++ _) hwfr
      (by simp only [List.length_append, hN]
          cases hgn : g.normal
          · simp
          · simp [hnormal_len _ hgn, hposlen])
      (by simp only [List.length_append, hU]
          cases hgu : g.uv
          · simp
          · simp [huv_len _ hgu, hposlen])

/-- The merge loop with no index buffer allocated: the index state stays
`none` and the attributes are appended as in the indexed case. -/
theorem mergeLoop_spec_none (gs : List BufferGeometry) :
    ∀ (A N : List Vec3) (U : List Vec2) (iOff : ℕ),
      (∀ g ∈ gs, attrSized g = true) →
      N.length = A.length → U.length = A.length →
      mergeLoop gs A.length iOff
        (A ++ List.replicate (vcount gs) ((0 : ℚ), (0 : ℚ), (0 : ℚ)))
        (N ++ List.replicate (vcount gs) ((0 : ℚ), (0 : ℚ), (0 : ℚ)))
        (U ++ List.replicate (vcount gs) ((0 : ℚ), (0 : ℚ)))
        none =
      (A ++ flatPositions gs, N ++ flatNormals gs, U ++ flatUvs gs, none) := by
  induction gs with
  | nil =>
    intro A N U iOff _ _ _
    simp [mergeLoop, vcount, flatPositions, flatNormals, flatUvs]
  | cons g rest ih =>
    intro A N U iOff hwf hN hU
    have hwfg := hwf g (List.mem_cons_self g rest)
    have hwfr : ∀ g2 ∈ rest, attrSized g2 = true :=
      fun g2 h2 => hwf g2 (List.mem_cons_of_mem g h2)
    have hgp : g.position.isSome := by
      unfold attrSized at hwfg
      simp only [Bool.and_eq_true] at hwfg
      exact hwfg.1.1
    obtain ⟨pos, hpos⟩ := Option.isSome_iff_exists.mp hgp
    have hposlen : posCount g = pos.length := by simp [posCount, hpos]
    have hnormal_len : ∀ ns, g.normal = some ns → ns.length = posCount g := by
      intro ns hns
      have h2 := hwfg
      unfold attrSized at h2
      rw [hns] at h2
      simp only [Bool.and_eq_true, beq_iff_eq] at h2
      exact h2.1.2
    have huv_len : ∀ us, g.uv = some us → us.length = posCount g := by
      intro us hus
      have h2 := hwfg
      unfold attrSized at h2
      rw [hus] at h2
      simp only [Bool.and_eq_true, beq_iff_eq] at h2
      exact h2.2
    rw [mergeLoop_cons_eq, vcount_cons]
    simp only [hpos, Option.getD_some]
    rw [writeAt_padding A pos (posCount g) (vcount rest) A.length _ rfl hposlen]
    have hNwrite : (match g.normal with
        | some ns => writeAt (N ++ List.replicate (posCount g + vcount rest)
            ((0 : ℚ), (0 : ℚ), (0 : ℚ))) A.length ns
        | none => N ++ List.replicate (posCount g + vcount rest)
            ((0 : ℚ), (0 : ℚ), (0 : ℚ))) =
        (N ++ g.normal.getD (List.replicate (posCount g) ((0 : ℚ), (0 : ℚ), (0 : ℚ)))) ++
          List.replicate (vcount rest) ((0 : ℚ), (0 : ℚ), (0 : ℚ)) := by
      cases hgn : g.normal with
      | some ns =>
        dsimp only [Option.getD_some]
        exact writeAt_padding N ns (posCount g) (vcount rest) A.length _ hN.symm
          (hnormal_len ns hgn).symm
      | none =>
        dsimp only [Option.getD_none]
        exact append_replicate_split N (posCount g) (vcount rest) _
    have hUwrite : (match g.uv with
        | some us => writeAt (U ++ List.replicate (posCount g + vcount rest)
            ((0 : ℚ), (0 : ℚ))) A.length us
        | none => U ++ List.replicate (posCount g + vcount rest) ((0 : ℚ), (0 : ℚ))) =
        (U ++ g.uv.getD (List.replicate (posCount g) ((0 : ℚ), (0 : ℚ)))) ++
          List.replicate (vcount rest) ((0 : ℚ), (0 : ℚ)) := by
      cases hgu : g.uv with
      | some us =>
        dsimp only [Option.getD_some]
        exact writeAt_padding U us (posCount g) (vcount rest) A.length _ hU.symm
          (huv_len us hgu).symm
      | none =>
        dsimp only [Option.getD_none]
        exact append_replicate_split U (posCount g) (vcount rest) _
    have hIwrite : (match g.index, (none : Option (List ℕ)) with
        | some ix, some acc => some (writeAt acc iOff (ix.map (fun i => i + A.length)))
        | _, _ => (none : Option (List ℕ))) = (none : Option (List ℕ)) := by
      cases g.index <;> rfl
    have hIoff : (match g.index, (none : Option (List ℕ)) with
        | some ix, some _ => iOff + ix.length
        | _, _ => iOff) = iOff := by
      cases g.index <;> rfl
    rw [hNwrite, hUwrite, hIwrite, hIoff]
    have hvlen : A.length + pos.length = (A ++ pos).length := by simp
    rw [hvlen]
    have hflatP : flatPositions (g :: rest) = pos ++ flatPositions rest := by
      simp [flatPositions, hpos]
    have hflatN : flatNormals (g :: rest) =
        g.normal.getD (List.replicate (posCount g) ((0 : ℚ), (0 : ℚ), (0 : ℚ))) ++
          flatNormals rest := by
      simp [flatNormals]
    have hflatU : flatUvs (g :: rest) =
        g.uv.getD (List.replicate (posCount g) ((0 : ℚ), (0 : ℚ))) ++ flatUvs rest := by
      simp [flatUvs]
    rw [hflatP, hflatN, hflatU,
      ← List.append_assoc A pos, ← List.append_assoc N _, ← List.append_assoc U _]
    exact ih (A ++ pos) (N ++ _) (U ++ _) iOff hwfr
      (by simp only [List.length_append, hN]
          cases hgn : g.normal
          · simp [hposlen]
          · simp [hnormal_len _ hgn, hposlen])
      (by simp only [List.length_append, hU]
          cases hgu : g.uv
          · simp [hposlen]
          · simp [huv_len _ hgu, hposlen])

/-- C8, counterexample: the claim calls the merged blank an *unindexed*
mesh; merging two small indexed triangles yields a mesh whose index
buffer is present (offset and concatenated), i.e. an indexed mesh. -/
theorem c8_counterexample_merged_blank_is_indexed :
    (mergeBufferGeometries [gTriA, gTriB]).map BufferGeometry.index =
      .ok (some [0, 1, 2, 3, 4, 5]) ∧
    (some [0, 1, 2, 3, 4, 5] : Option (List ℕ)) ≠ none := by
  refine ⟨by with_unfolding_all rfl, by simp⟩

/-- C8, amended: for well-formed inputs the merge produces a mesh whose
position/normal/uv arrays are the concatenations of the inputs' arrays
(zero-filled where an input lacks the attribute) and whose index buffer —
present whenever any input is indexed, so the blank is indexed, not
unindexed — is the concatenation of the inputs' index buffers, each
offset by the preceding vertex counts; the index is `none` only when no
input has one. -/
theorem c8_merge_is_offset_concatenation :
    ∀ gs : List BufferGeometry, (∀ g ∈ gs, attrSized g = true) →
      mergeBufferGeometries gs = .ok
        ⟨some (flatPositions gs), some (flatNormals gs), some (flatUvs gs),
          if 0 < icount gs then some (offsetIndices 0 gs) else none, none, none⟩ := by
  intro gs hwf
  have hpos : ∀ g ∈ gs, g.position.isSome := by
    intro g hg
    have h2 := hwf g hg
    unfold attrSized at h2
    simp only [Bool.and_eq_true] at h2
    exact h2.1.1
  have h1 := mergeLoop_spec_some gs [] [] [] [] hwf rfl rfl
  have h0 := mergeLoop_spec_none gs [] [] [] 0 hwf rfl rfl
  simp only [List.nil_append, List.length_nil] at h1 h0
  unfold mergeBufferGeometries
  rw [getPositionCounts_ok gs hpos]
  dsimp only
  rw [show (List.map posCount gs).sum = vcount gs from rfl,
    show (List.map (fun g => (g.index.getD []).length) gs).sum = icount gs from rfl]
  by_cases hic : 0 < icount gs
  · rw [if_pos hic, h1, if_pos hic]
  · rw [if_neg hic, h0, if_neg hic]

/-- C8, witness: the amended statement at the two concrete indexed
triangles. -/
theorem c8_merge_is_offset_concatenation_witness :
    (∀ g ∈ [gTriA, gTriB], attrSized g = true) ∧
    mergeBufferGeometries [gTriA, gTriB] = .ok
      ⟨some (flatPositions [gTriA, gTriB]), some (flatNormals [gTriA, gTriB]),
        some (flatUvs [gTriA, gTriB]),
        if 0 < icount [gTriA, gTriB] then some (offsetIndices 0 [gTriA, gTriB]) else none,
        none, none⟩ :=
  ⟨by with_unfolding_all decide,
    c8_merge_is_offset_concatenation [gTriA, gTriB] (by with_unfolding_all decide)⟩

/-! ## C9: determinism of the 2D projection extractor -/

/-- C9: the edge extraction and the side view's depth-sorted,
duplicate-suppressed drawing are pure functions of the scene and the
`Math` primitives — two runs on equal inputs produce identical edge
lists.  (The source's iteration constructs are all deterministic:
`traverse` order, the ES2019-stable `Array.prototype.sort`, and
insertion-ordered `Set` membership.) -/
theorem c9_extractor_deterministic :
    ∀ (m : JSMath) (c1 c2 : List SceneChild) (x y scale : ℚ),
      c1 = c2 →
      extractEdgesFromObject m c1 = extractEdgesFromObject m c2 ∧
      addSideView m c1 x y scale = addSideView m c2 x y scale := by
  intro m c1 c2 x y scale h
  subst h
  exact ⟨rfl, rfl⟩

/-- C9, witness: determinism applied to a concrete scene. -/
theorem c9_extractor_deterministic_witness :
    extractEdgesFromObject mathStub demoChildren = extractEdgesFromObject mathStub demoChildren ∧
    addSideView mathStub demoChildren 10 20 2 = addSideView mathStub demoChildren 10 20 2 :=
  c9_extractor_deterministic mathStub demoChildren demoChildren 10 20 2 rfl

/-! ## C10: healGeometry -/

/-- C10, counterexample: the claim quantifies over every input geometry,
but a geometry without a position attribute is returned by
`healGeometry`'s early exit with no uv synthesized and no bounding
volumes computed. -/
theorem c10_counterexample_heal_without_position :
    gNoAttributes.position = none ∧
    healGeometry extBase gNoAttributes = gNoAttributes ∧
    (healGeometry extBase gNoAttributes).uv = none ∧
    (healGeometry extBase gNoAttributes).boundingBox = none ∧
    (healGeometry extBase gNoAttributes).boundingSphere = none :=
  ⟨rfl, rfl, rfl, rfl, rfl⟩

/-- C10, amended: for every input geometry that has a position
attribute, `healGeometry` (a pure function of its input — the source
clones before mutating, so the caller's geometry is untouched) returns a
geometry with the same position attribute, a uv attribute that is the
input's or a zero-filled one of the same vertex count, and freshly
computed bounding box and bounding sphere; an input without a position
attribute is returned unchanged. -/
theorem c10_heal_geometry :
    ∀ (ext : Externals) (g : BufferGeometry) (pos : List Vec3),
      g.position = some pos →
      (healGeometry ext g).position = some pos ∧
      (healGeometry ext g).uv = some (g.uv.getD (List.replicate pos.length (0, 0))) ∧
      (healGeometry ext g).boundingBox = some (ext.computeBoundingBox pos) ∧
      (healGeometry ext g).boundingSphere = some (ext.computeBoundingSphere pos) := by
  intro ext g pos h
  obtain ⟨position, normal, uv, index, bb, bs⟩ := g
  simp only [BufferGeometry.position] at h  -- hmm placeholder
  subst h
  cases uv <;> simp [healGeometry]

/-- C10, witness: the amended statement at a concrete geometry. -/
theorem c10_heal_geometry_witness :
    gTriA.position = some [(0, 0, 0), (1, 0, 0), (0, 1, 0)] ∧
    ((healGeometry extBase gTriA).position = some [(0, 0, 0), (1, 0, 0), (0, 1, 0)] ∧
      (healGeometry extBase gTriA).uv =
        some (gTriA.uv.getD (List.replicate
          ([((0 : ℚ), (0 : ℚ), (0 : ℚ)), (1, 0, 0), (0, 1, 0)]).length (0, 0))) ∧
      (healGeometry extBase gTriA).boundingBox =
        some (extBase.computeBoundingBox [(0, 0, 0), (1, 0, 0), (0, 1, 0)]) ∧
      (healGeometry extBase gTriA).boundingSphere =
        some (extBase.computeBoundingSphere [(0, 0, 0), (1, 0, 0), (0, 1, 0)])) :=
  ⟨rfl, c10_heal_geometry extBase gTriA [(0, 0, 0), (1, 0, 0), (0, 1, 0)] rfl⟩

end Drill
